import Mathlib

/-!
Shallow embedding of the flag-service request-handling path (`src/app.py`):
the authentication middleware `require_auth`, the CRUD handlers
`create_flag`, `update_flag`, `delete_flag`, and an explicit model of the
`try/except/finally` connection cleanup used to study connection release.

Request bodies are parsed JSON objects (Python dicts) modelled as
association lists of string keys and JSON values; the database is the list
of committed flag rows; SQL timestamps (`NOW()`) are a `Nat` parameter of
each handler.  Each handler returns its HTTP response, the committed
database after the request, and the list of connection/transaction events
it performed, in order.
-/

set_option autoImplicit false

namespace FlagService

/-- JSON values as they appear in a parsed request body. -/
inductive JVal where
  | jstr (s : String)
  | jbool (b : Bool)
  | jnum (n : Int)
  | jnull
  deriving DecidableEq

/-- A parsed JSON object (a Python dict): key/value pairs with unique keys. -/
abbrev JObj := List (String × JVal)

/-- Dict lookup: `d.get(key)` / `key in d`.  Keys of a dict are unique, so
taking the first matching entry agrees with Python semantics. -/
def jget : JObj → String → Option JVal
  | [], _ => none
  | (k, v) :: rest, key => if k = key then some v else jget rest key

/-- Python `str()` of a JSON value, used in the duplicate-flag error message
built by the f-string in `create_flag`. -/
def JVal.render : JVal → String
  | .jstr s => s
  | .jbool b => if b then "True" else "False"
  | .jnum n => toString n
  | .jnull => "None"

/-- A row of the `flags` table. -/
structure Flag where
  name : JVal
  description : JVal
  is_enabled : JVal
  created_at : Nat
  updated_at : Nat
  deriving DecidableEq

/-- Response bodies produced by the handlers.  `errDetails` stands for the
500 body `{"error": msg, "details": str(e)}`; the free-form exception text
is abstracted away. -/
inductive Body where
  | err (msg : String)
  | errDetails (msg : String)
  | row (f : Flag)
  | rows (fs : List Flag)
  | text (s : String)
  deriving DecidableEq

/-- An HTTP response: body and status code, as returned by Flask handlers. -/
structure Response where
  body : Body
  status : Nat
  deriving DecidableEq

/-- Connection and transaction events a handler performs, in order:
`pool.getconn()`, `conn.commit()`, `conn.rollback()`, `pool.putconn(conn)`. -/
inductive DbEv where
  | getconn
  | commit
  | rollback
  | putconn
  deriving DecidableEq

/-- POST /flags (`create_flag`).  Validation: `if not data or 'name' not in
data` then 400.  Otherwise insert a row with `created_at = updated_at =
NOW()`; a duplicate name raises `UniqueViolation`, which is answered by
rollback and 409.  `dbFault = true` injects an unexpected database error at
the `cur.execute` call, which the generic `except` answers with rollback
and 500. -/
def create_flag (db : List Flag) (now : Nat) (data : Option JObj)
    (dbFault : Bool) : Response × List Flag × List DbEv :=
  match data with
  | none => (⟨Body.err "\x27name\x27 é obrigatório", 400⟩, db, [])
  | some d =>
    if d.isEmpty then (⟨Body.err "\x27name\x27 é obrigatório", 400⟩, db, [])
    else
      match jget d "name" with
      | none => (⟨Body.err "\x27name\x27 é obrigatório", 400⟩, db, [])
      | some name =>
        let description := (jget d "description").getD (JVal.jstr "")
        let is_enabled := (jget d "is_enabled").getD (JVal.jbool false)
        if dbFault then
          (⟨Body.errDetails "Erro interno do servidor", 500⟩, db,
            [DbEv.getconn, DbEv.rollback, DbEv.putconn])
        else if db.any (fun r => r.name = name) then
          (⟨Body.err ("Flag \x27" ++ JVal.render name ++ "\x27 já existe"), 409⟩,
            db, [DbEv.getconn, DbEv.rollback, DbEv.putconn])
        else
          (⟨Body.row ⟨name, description, is_enabled, now, now⟩, 201⟩,
            db ++ [⟨name, description, is_enabled, now, now⟩],
            [DbEv.getconn, DbEv.commit, DbEv.putconn])

/-- The dynamic field list of `update_flag`: an entry for `description` if
present in the body, then an entry for `is_enabled` if present, in that
order, paired with the supplied values. -/
def update_fields (d : JObj) : List (String × JVal) :=
  (match jget d "description" with
   | some v => [("description", v)]
   | none => []) ++
  (match jget d "is_enabled" with
   | some v => [("is_enabled", v)]
   | none => [])

/-- The column names the generated SQL statement mentions in its SET
clause: the dynamic field list followed by the fixed `updated_at = NOW()`. -/
def update_query_columns (d : JObj) : List String :=
  (update_fields d).map Prod.fst ++ ["updated_at"]

/-- Effect of the generated `UPDATE ... SET <fields>, updated_at = NOW()`
statement on a single matched row. -/
def applyFields (fields : List (String × JVal)) (now : Nat) (r : Flag) :
    Flag :=
  let r1 := fields.foldl
    (fun acc kv =>
      if kv.1 = "description" then { acc with description := kv.2 }
      else if kv.1 = "is_enabled" then { acc with is_enabled := kv.2 }
      else acc) r
  { r1 with updated_at := now }

/-- The part of PUT /flags/<name> after the body has passed the
`not data` check: validate the field list, then run the UPDATE.  Zero rows
matched means `cur.rowcount == 0`, answered by 404 from inside the `try`
with no rollback before the connection is released.  `dbFault = true`
injects an unexpected error at `cur.execute`, answered by rollback and
500. -/
def update_with_fields (name : String) (db : List Flag) (now : Nat)
    (fields : List (String × JVal)) (dbFault : Bool) :
    Response × List Flag × List DbEv :=
  if fields.isEmpty then
    (⟨Body.err "Pelo menos um campo (\x27description\x27, \x27is_enabled\x27) é obrigatório", 400⟩,
      db, [])
  else if dbFault then
    (⟨Body.errDetails "Erro interno do servidor", 500⟩, db,
      [DbEv.getconn, DbEv.rollback, DbEv.putconn])
  else
    match db.filter (fun r => r.name = JVal.jstr name) with
    | [] => (⟨Body.err "Flag não encontrada", 404⟩, db,
        [DbEv.getconn, DbEv.putconn])
    | m :: _ =>
      (⟨Body.row (applyFields fields now m), 200⟩,
        db.map (fun r =>
          if r.name = JVal.jstr name then applyFields fields now r else r),
        [DbEv.getconn, DbEv.commit, DbEv.putconn])

/-- PUT /flags/<name> (`update_flag`). -/
def update_flag (name : String) (db : List Flag) (now : Nat)
    (data : Option JObj) (dbFault : Bool) :
    Response × List Flag × List DbEv :=
  match data with
  | none => (⟨Body.err "Corpo da requisição obrigatório", 400⟩, db, [])
  | some d =>
    if d.isEmpty then
      (⟨Body.err "Corpo da requisição obrigatório", 400⟩, db, [])
    else update_with_fields name db now (update_fields d) dbFault

/-- DELETE /flags/<name> (`delete_flag`).  Zero rows deleted means
`cur.rowcount == 0`, answered by 404 from inside the `try` with no rollback
before the connection is released; otherwise commit and return an empty 204
body.  `dbFault = true` injects an unexpected error at `cur.execute`,
answered by rollback and 500. -/
def delete_flag (name : String) (db : List Flag) (dbFault : Bool) :
    Response × List Flag × List DbEv :=
  if dbFault then
    (⟨Body.errDetails "Erro interno do servidor", 500⟩, db,
      [DbEv.getconn, DbEv.rollback, DbEv.putconn])
  else if (db.filter (fun r => r.name = JVal.jstr name)).isEmpty then
    (⟨Body.err "Flag não encontrada", 404⟩, db, [DbEv.getconn, DbEv.putconn])
  else
    (⟨Body.text "", 204⟩,
      db.filter (fun r => ¬ (r.name = JVal.jstr name)),
      [DbEv.getconn, DbEv.commit, DbEv.putconn])

/-- Outcome of the `requests.get(f"{AUTH_SERVICE_URL}/validate", ...)` call
made by the middleware: an HTTP response with some status, a
`requests.exceptions.Timeout`, or any other
`requests.exceptions.RequestException`. -/
inductive SvcResult where
  | status (code : Nat)
  | timeout
  | transportError
  deriving DecidableEq

/-- A request issued to the external validation endpoint: the forwarded
`Authorization` header value and the `timeout=` argument passed to
`requests.get`. -/
structure AuthCall where
  header : String
  timeoutUnits : Nat
  deriving DecidableEq

/-- Decision of the middleware: reject with a response, or run the wrapped
handler. -/
inductive GateDecision where
  | reject (r : Response)
  | allow
  deriving DecidableEq

/-- The `require_auth` middleware.  `request.headers.get("Authorization")`
yields `none` when the header is absent; `if not auth_header` also treats
an empty header value as missing.  Otherwise one request is issued to the
validation endpoint with `timeout=3`, and the outcome is mapped to
allow (status 200), 401 (any other status), 504 (timeout) or 503 (other
transport failure).  The second component lists the calls actually made. -/
def require_auth (authHeader : Option String) (svc : SvcResult) :
    GateDecision × List AuthCall :=
  match authHeader with
  | none => (.reject ⟨Body.err "Authorization header obrigatório", 401⟩, [])
  | some h =>
    if h = "" then
      (.reject ⟨Body.err "Authorization header obrigatório", 401⟩, [])
    else
      match svc with
      | .status c =>
        if c = 200 then (.allow, [⟨h, 3⟩])
        else (.reject ⟨Body.err "Chave de API inválida", 401⟩, [⟨h, 3⟩])
      | .timeout =>
        (.reject ⟨Body.err "Serviço de autenticação indisponível (timeout)", 504⟩,
          [⟨h, 3⟩])
      | .transportError =>
        (.reject ⟨Body.err "Serviço de autenticação indisponível", 503⟩,
          [⟨h, 3⟩])

/-- A protected route: the middleware runs first, and only an `allow`
decision lets the wrapped handler touch the database.  Returns the
response, the committed database, the database events, and the calls made
to the authentication service. -/
def guarded_handler (authHeader : Option String) (svc : SvcResult)
    (handler : List Flag → Response × List Flag × List DbEv)
    (db : List Flag) :
    Response × List Flag × List DbEv × List AuthCall :=
  match require_auth authHeader svc with
  | (GateDecision.reject r, calls) => (r, db, [], calls)
  | (GateDecision.allow, calls) =>
    ((handler db).1, (handler db).2.1, (handler db).2.2, calls)

/-- Faults injected into the connection-handling trace model: none, a
failing `pool.getconn()`, or a failing `conn.cursor(...)`. -/
inductive Fault where
  | ok
  | getconnRaises
  | cursorRaises
  deriving DecidableEq

/-- State of a Python local variable when the `finally` block runs:
never assigned in this scope, assigned `None`, or holding a live object. -/
inductive PyLocal where
  | unbound
  | pynone
  | bound
  deriving DecidableEq

/-- Pool interactions observed during a request. -/
inductive PoolEv where
  | getconn
  | putconn
  deriving DecidableEq

/-- How the handler exits: the pending return value is delivered, or the
`finally` block itself raises `UnboundLocalError`. -/
inductive HandlerExit where
  | returned
  | unboundLocalError
  deriving DecidableEq

/-- The cleanup `finally: if cur: cur.close()` then
`if conn: pool.putconn(conn)`.  Evaluating `if cur` (or `if conn`) when the
name was never assigned raises `UnboundLocalError`, aborting the block
before `putconn` runs; a `None` value is falsy and is skipped. -/
def finallyCleanup (cur conn : PyLocal) : HandlerExit × List PoolEv :=
  match cur with
  | .unbound => (.unboundLocalError, [])
  | _ =>
    match conn with
    | .unbound => (.unboundLocalError, [])
    | .pynone => (.returned, [])
    | .bound => (.returned, [.putconn])

/-- GET /flags (`get_flags`): `conn` and `cur` are assigned only inside the
`try`, with no initialisation before it.  A failing `getconn` leaves both
names unbound; a failing `cursor` leaves `cur` unbound while the connection
is already checked out. -/
def get_flags_trace (fault : Fault) : HandlerExit × List PoolEv :=
  match fault with
  | .ok =>
    let c := finallyCleanup .bound .bound
    (c.1, [PoolEv.getconn] ++ c.2)
  | .getconnRaises =>
    let c := finallyCleanup .unbound .unbound
    (c.1, c.2)
  | .cursorRaises =>
    let c := finallyCleanup .unbound .bound
    (c.1, [PoolEv.getconn] ++ c.2)

/-- POST /flags (`create_flag`): `conn = None` and `cur = None` are set
before the `try`, so the cleanup never sees an unbound name and the
connection, once acquired, is always returned. -/
def create_flag_trace (fault : Fault) : HandlerExit × List PoolEv :=
  match fault with
  | .ok =>
    let c := finallyCleanup .bound .bound
    (c.1, [PoolEv.getconn] ++ c.2)
  | .getconnRaises =>
    let c := finallyCleanup .pynone .pynone
    (c.1, c.2)
  | .cursorRaises =>
    let c := finallyCleanup .pynone .bound
    (c.1, [PoolEv.getconn] ++ c.2)

/-! Helper lemmas shared by the claim theorems. -/

/-- Characterisation of the generated UPDATE statement on one row: the
supplied fields overwrite the row, absent fields keep their value, the
name and creation timestamp are untouched, and `updated_at` is refreshed. -/
theorem applyFields_update_fields (d : JObj) (now : Nat) (x : Flag) :
    applyFields (update_fields d) now x =
      ⟨x.name, (jget d "description").getD x.description,
        (jget d "is_enabled").getD x.is_enabled, x.created_at, now⟩ := by
  unfold applyFields update_fields
  cases hd : jget d "description" <;> cases he : jget d "is_enabled" <;>
    simp [List.foldl]

/-- Dict lookup of a key kept by a filter is unchanged by the filter. -/
theorem jget_filter (d : JObj) (p : String × JVal → Bool) (key : String)
    (hp : ∀ v, p (key, v) = true) :
    jget (d.filter p) key = jget d key := by
  induction d with
  | nil => rfl
  | cons kv rest ih =>
    by_cases hk : kv.1 = key
    · have hkeep : p kv = true := by
        have := hp kv.2
        rw [← hk] at this
        simpa using this
      simp [List.filter, hkeep, jget, hk]
    · by_cases hkeep : p kv = true
      · simp [List.filter, hkeep, jget, hk, ih]
      · simp [List.filter, hkeep, jget, hk, ih]

/-- A body containing the key never reaches the empty-dict branch. -/
theorem jget_some_ne_nil (d : JObj) (key : String) (v : JVal)
    (h : jget d key = some v) : d ≠ [] := by
  intro hnil
  subst hnil
  simp [jget] at h

/-- A nonempty list is not `isEmpty`. -/
theorem isEmpty_false_of_ne_nil {α : Type} {l : List α} (h : l ≠ []) :
    l.isEmpty = false := by
  cases l with
  | nil => exact absurd rfl h
  | cons a l => rfl

/-- Deleting a name no stored row carries: `rowcount == 0`, answered by 404
with the rows unchanged and no rollback before the release. -/
theorem delete_flag_notfound (name : String) (db : List Flag)
    (hmiss : ∀ r ∈ db, r.name ≠ JVal.jstr name) :
    delete_flag name db false =
      (⟨Body.err "Flag não encontrada", 404⟩, db,
        [DbEv.getconn, DbEv.putconn]) := by
  have hfil : db.filter (fun r => r.name = JVal.jstr name) = [] := by
    rw [List.filter_eq_nil_iff]
    intro r hr
    simpa using hmiss r hr
  simp [delete_flag, hfil]

/-- Deleting a name some stored row carries: commit, empty 204 body, and
the matching rows removed. -/
theorem delete_flag_found (name : String) (db : List Flag)
    (hex : ∃ r ∈ db, r.name = JVal.jstr name) :
    delete_flag name db false =
      (⟨Body.text "", 204⟩,
        db.filter (fun r => ¬ (r.name = JVal.jstr name)),
        [DbEv.getconn, DbEv.commit, DbEv.putconn]) := by
  rcases hex with ⟨r, hr, hv⟩
  have hmem : r ∈ db.filter (fun r => r.name = JVal.jstr name) :=
    List.mem_filter.mpr ⟨hr, by simpa using hv⟩
  cases hfil : db.filter (fun r => r.name = JVal.jstr name) with
  | nil => rw [hfil] at hmem; cases hmem
  | cons a l => simp [delete_flag, hfil]

/-- Past the `not data` check, `update_flag` is the field-list pipeline. -/
theorem update_flag_some_eq (name : String) (db : List Flag) (now : Nat)
    (d : JObj) (dbFault : Bool) (h : d.isEmpty = false) :
    update_flag name db now (some d) dbFault =
      update_with_fields name db now (update_fields d) dbFault := by
  simp [update_flag, h]

/-! Claim theorems. -/

/-- C5 (code bug): in `get_flags`, `conn` and `cur` are assigned only
inside the `try`; when `conn.cursor(...)` raises after the connection was
checked out, the `finally` block evaluates `if cur` on an unbound local,
raises `UnboundLocalError`, and never reaches `pool.putconn`, so the
acquired connection is not released (one `getconn`, zero `putconn`).  By
contrast `create_flag`, which pre-initialises `conn = None` and
`cur = None`, releases the connection on the same fault. -/
theorem get_flags_cursor_fault_leaks :
    get_flags_trace Fault.cursorRaises =
      (HandlerExit.unboundLocalError, [PoolEv.getconn]) ∧
    (get_flags_trace Fault.cursorRaises).2.count PoolEv.putconn = 0 ∧
    create_flag_trace Fault.cursorRaises =
      (HandlerExit.returned, [PoolEv.getconn, PoolEv.putconn]) := by
  decide

/-- C1 counterexample: a request whose `Authorization` header is present
but empty is not forwarded to the validation endpoint (no call is made)
and the wrapped handler is not allowed to run, even though the external
service would answer 200 — contradicting "if the header is present, it is
forwarded". -/
theorem auth_present_empty_header_not_forwarded :
    (require_auth (some "") (SvcResult.status 200)).2 = [] ∧
    (require_auth (some "") (SvcResult.status 200)).1 ≠ GateDecision.allow ∧
    require_auth (some "") (SvcResult.status 200) =
      (GateDecision.reject ⟨Body.err "Authorization header obrigatório", 401⟩,
        []) := by
  decide

/-- C4 counterexample: updating a flag that does not exist returns 404
with events `[getconn, putconn]` — the connection is released with no
rollback in between, contradicting "the not-found paths of update and
delete roll the transaction back before the connection is released". -/
theorem update_notfound_no_rollback :
    (update_flag "dark_mode" [] 5 (some [("description", JVal.jstr "d")])
        false).1.status = 404 ∧
    (update_flag "dark_mode" [] 5 (some [("description", JVal.jstr "d")])
        false).2.2 = [DbEv.getconn, DbEv.putconn] ∧
    DbEv.rollback ∉
      (update_flag "dark_mode" [] 5 (some [("description", JVal.jstr "d")])
        false).2.2 := by
  decide

/-- C6 counterexample: a create request whose body carries `name` equal to
the empty string is not rejected with 400: the presence check
`'name' not in data` passes, a connection is acquired, and the row is
inserted and answered with 201. -/
theorem create_empty_name_accepted :
    (create_flag [] 3 (some [("name", JVal.jstr "")]) false).1.status = 201 ∧
    (create_flag [] 3 (some [("name", JVal.jstr "")]) false).2.1 =
      [⟨JVal.jstr "", JVal.jstr "", JVal.jbool false, 3, 3⟩] ∧
    (create_flag [] 3 (some [("name", JVal.jstr "")]) false).2.2 ≠ [] := by
  decide

/-- C4 (amended): each mutating operation performs exactly one of these
event sequences: validation failure — no connection touched; success —
`getconn, commit, putconn`; create's duplicate-name path and any
unexpected database error — `getconn, rollback, putconn`; but the
not-found paths of update and delete release the connection with no
rollback (`getconn, putconn`). -/
theorem mutation_transaction_events (db : List Flag) (now : Nat)
    (data : Option JObj) (name : String) (dbFault : Bool) :
    ((create_flag db now data dbFault).2.2 = [] ∧
        (create_flag db now data dbFault).1.status = 400 ∨
      (create_flag db now data dbFault).2.2 =
          [DbEv.getconn, DbEv.commit, DbEv.putconn] ∧
        (create_flag db now data dbFault).1.status = 201 ∨
      (create_flag db now data dbFault).2.2 =
          [DbEv.getconn, DbEv.rollback, DbEv.putconn] ∧
        ((create_flag db now data dbFault).1.status = 409 ∨
          (create_flag db now data dbFault).1.status = 500)) ∧
    ((update_flag name db now data dbFault).2.2 = [] ∧
        (update_flag name db now data dbFault).1.status = 400 ∨
      (update_flag name db now data dbFault).2.2 =
          [DbEv.getconn, DbEv.commit, DbEv.putconn] ∧
        (update_flag name db now data dbFault).1.status = 200 ∨
      (update_flag name db now data dbFault).2.2 =
          [DbEv.getconn, DbEv.rollback, DbEv.putconn] ∧
        (update_flag name db now data dbFault).1.status = 500 ∨
      (update_flag name db now data dbFault).2.2 =
          [DbEv.getconn, DbEv.putconn] ∧
        (update_flag name db now data dbFault).1.status = 404) ∧
    ((delete_flag name db dbFault).2.2 =
          [DbEv.getconn, DbEv.commit, DbEv.putconn] ∧
        (delete_flag name db dbFault).1.status = 204 ∨
      (delete_flag name db dbFault).2.2 =
          [DbEv.getconn, DbEv.rollback, DbEv.putconn] ∧
        (delete_flag name db dbFault).1.status = 500 ∨
      (delete_flag name db dbFault).2.2 = [DbEv.getconn, DbEv.putconn] ∧
        (delete_flag name db dbFault).1.status = 404) := by
  refine ⟨?_, ?_, ?_⟩
  · cases data with
    | none => simp [create_flag]
    | some d =>
      simp only [create_flag]
      split
      · simp
      · split
        · simp
        · split
          · simp
          · split
            · simp
            · simp
  · cases data with
    | none => simp [update_flag]
    | some d =>
      simp only [update_flag]
      split
      · simp
      · simp only [update_with_fields]
        split
        · simp
        · split
          · simp
          · split
            · simp
            · simp
  · simp only [delete_flag]
    split
    · simp
    · split
      · simp
      · simp

/-- C6 (amended): a create request whose body is absent, an empty object,
or lacks the `name` key fails with 400 before any database access: no
connection is acquired, no event occurs, and the stored rows are
unchanged.  (Presence of `name` is the only check; an empty name value is
not rejected.) -/
theorem create_missing_name_rejected (db : List Flag) (now : Nat)
    (data : Option JObj) (dbFault : Bool)
    (h : data = none ∨ ∃ d, data = some d ∧ jget d "name" = none) :
    (create_flag db now data dbFault).1.status = 400 ∧
    (create_flag db now data dbFault).2.1 = db ∧
    (create_flag db now data dbFault).2.2 = [] := by
  rcases h with rfl | ⟨d, rfl, hname⟩
  · simp [create_flag]
  · simp only [create_flag]
    split
    · simp
    · simp [hname]

/-- Witness for C6: the concrete request with no body at all is rejected
with 400 and performs no database event. -/
theorem create_missing_name_rejected_witness :
    (create_flag [] 0 none false).1.status = 400 ∧
    (create_flag [] 0 none false).2.1 = [] ∧
    (create_flag [] 0 none false).2.2 = [] :=
  create_missing_name_rejected [] 0 none false (Or.inl rfl)

/-- C7: an update request whose body is absent, empty, or contains neither
`description` nor `is_enabled` fails with 400 before touching the
database: no event occurs and the stored rows — in particular the targeted
row — are unchanged. -/
theorem update_no_recognized_field_rejected (name : String)
    (db : List Flag) (now : Nat) (data : Option JObj) (dbFault : Bool)
    (h : data = none ∨ ∃ d, data = some d ∧ jget d "description" = none ∧
        jget d "is_enabled" = none) :
    (update_flag name db now data dbFault).1.status = 400 ∧
    (update_flag name db now data dbFault).2.1 = db ∧
    (update_flag name db now data dbFault).2.2 = [] := by
  rcases h with rfl | ⟨d, rfl, hd, he⟩
  · simp [update_flag]
  · simp only [update_flag]
    split
    · simp
    · have hf : update_fields d = [] := by simp [update_fields, hd, he]
      simp [update_with_fields, hf]

/-- Witness for C7: a concrete body holding only an unrecognized key is
rejected with 400, leaves the row as it was, and performs no database
event. -/
theorem update_no_recognized_field_rejected_witness :
    (update_flag "dark_mode"
        [⟨JVal.jstr "dark_mode", JVal.jstr "", JVal.jbool false, 1, 1⟩] 2
        (some [("other", JVal.jnull)]) false).1.status = 400 ∧
    (update_flag "dark_mode"
        [⟨JVal.jstr "dark_mode", JVal.jstr "", JVal.jbool false, 1, 1⟩] 2
        (some [("other", JVal.jnull)]) false).2.1 =
      [⟨JVal.jstr "dark_mode", JVal.jstr "", JVal.jbool false, 1, 1⟩] ∧
    (update_flag "dark_mode"
        [⟨JVal.jstr "dark_mode", JVal.jstr "", JVal.jbool false, 1, 1⟩] 2
        (some [("other", JVal.jnull)]) false).2.2 = [] :=
  update_no_recognized_field_rejected "dark_mode"
    [⟨JVal.jstr "dark_mode", JVal.jstr "", JVal.jbool false, 1, 1⟩] 2
    (some [("other", JVal.jnull)]) false
    (Or.inr ⟨[("other", JVal.jnull)], rfl, by decide, by decide⟩)

/-- C2: a create request whose body carries a present, non-empty name and
whose name is not already stored is answered 201 with a row echoing the
input name, the description defaulting to the empty string, `is_enabled`
defaulting to `false`, and `created_at` equal to `updated_at`; the row is
appended to the stored rows. -/
theorem create_valid_echoes_input (db : List Flag) (now : Nat) (d : JObj)
    (s : String) (hname : jget d "name" = some (JVal.jstr s))
    (_hne : s ≠ "")
    (hfresh : ∀ r ∈ db, r.name ≠ JVal.jstr s) :
    (create_flag db now (some d) false).1 =
      ⟨Body.row ⟨JVal.jstr s, (jget d "description").getD (JVal.jstr ""),
        (jget d "is_enabled").getD (JVal.jbool false), now, now⟩, 201⟩ ∧
    (create_flag db now (some d) false).2.1 =
      db ++ [⟨JVal.jstr s, (jget d "description").getD (JVal.jstr ""),
        (jget d "is_enabled").getD (JVal.jbool false), now, now⟩] := by
  have hd : d.isEmpty = false :=
    isEmpty_false_of_ne_nil (jget_some_ne_nil d "name" _ hname)
  have hany : db.any (fun r => r.name = JVal.jstr s) = false := by
    cases hA : db.any (fun r => r.name = JVal.jstr s) with
    | false => rfl
    | true =>
      rcases List.any_eq_true.mp hA with ⟨r, hr, hp⟩
      exact absurd (of_decide_eq_true hp) (hfresh r hr)
  simp [create_flag, hd, hname, hany]

/-- Witness for C2: the scenario request creating `dark_mode` with no
optional fields is answered 201 with empty description, disabled state and
equal timestamps. -/
theorem create_valid_echoes_input_witness :
    (create_flag [] 7 (some [("name", JVal.jstr "dark_mode")]) false).1 =
      ⟨Body.row ⟨JVal.jstr "dark_mode", JVal.jstr "", JVal.jbool false, 7, 7⟩,
        201⟩ ∧
    (create_flag [] 7 (some [("name", JVal.jstr "dark_mode")]) false).2.1 =
      [⟨JVal.jstr "dark_mode", JVal.jstr "", JVal.jbool false, 7, 7⟩] := by
  have h := create_valid_echoes_input [] 7 [("name", JVal.jstr "dark_mode")]
    "dark_mode" (by decide) (by decide) (fun r hr => nomatch hr)
  refine ⟨?_, ?_⟩
  · rw [h.1]
    decide
  · rw [h.2]
    decide

/-- C3: a create request whose name key matches the name of a stored row —
whatever the rest of the body — is answered 409, the transaction is rolled
back before the connection is released, and the stored rows (the existing
row in particular) are unchanged. -/
theorem create_duplicate_conflict (db : List Flag) (now : Nat) (d : JObj)
    (v : JVal) (hname : jget d "name" = some v)
    (hdup : ∃ r ∈ db, r.name = v) :
    (create_flag db now (some d) false).1.status = 409 ∧
    (create_flag db now (some d) false).2.1 = db ∧
    (create_flag db now (some d) false).2.2 =
      [DbEv.getconn, DbEv.rollback, DbEv.putconn] := by
  have hd : d.isEmpty = false :=
    isEmpty_false_of_ne_nil (jget_some_ne_nil d "name" v hname)
  have hany : db.any (fun r => r.name = v) = true := by
    rcases hdup with ⟨r, hr, hv⟩
    exact List.any_eq_true.mpr ⟨r, hr, by simpa using hv⟩
  simp [create_flag, hd, hname, hany]

/-- Witness for C3: repeating the creation of an already stored flag is
answered 409 with rollback and leaves the stored row as it was. -/
theorem create_duplicate_conflict_witness :
    (create_flag [⟨JVal.jstr "a", JVal.jstr "", JVal.jbool false, 0, 0⟩] 1
        (some [("name", JVal.jstr "a")]) false).1.status = 409 ∧
    (create_flag [⟨JVal.jstr "a", JVal.jstr "", JVal.jbool false, 0, 0⟩] 1
        (some [("name", JVal.jstr "a")]) false).2.1 =
      [⟨JVal.jstr "a", JVal.jstr "", JVal.jbool false, 0, 0⟩] ∧
    (create_flag [⟨JVal.jstr "a", JVal.jstr "", JVal.jbool false, 0, 0⟩] 1
        (some [("name", JVal.jstr "a")]) false).2.2 =
      [DbEv.getconn, DbEv.rollback, DbEv.putconn] :=
  create_duplicate_conflict
    [⟨JVal.jstr "a", JVal.jstr "", JVal.jbool false, 0, 0⟩] 1
    [("name", JVal.jstr "a")] (JVal.jstr "a") (by decide)
    ⟨⟨JVal.jstr "a", JVal.jstr "", JVal.jbool false, 0, 0⟩, by simp, rfl⟩

/-- C8: an update with a well-formed body, and a delete, each naming a flag
no stored row carries, are answered 404 with the stored rows unchanged; a
delete naming a stored flag is answered 204 with an empty body, and
repeating that delete is answered 404 — delete is not idempotent in its
reported outcome. -/
theorem update_delete_notfound_semantics (name : String) (db : List Flag)
    (now : Nat) (d : JObj)
    (hmiss : ∀ r ∈ db, r.name ≠ JVal.jstr name)
    (hval : update_fields d ≠ []) :
    (update_flag name db now (some d) false).1.status = 404 ∧
    (update_flag name db now (some d) false).2.1 = db ∧
    (delete_flag name db false).1.status = 404 ∧
    (delete_flag name db false).2.1 = db ∧
    (∀ db2 : List Flag, (∃ r ∈ db2, r.name = JVal.jstr name) →
      (delete_flag name db2 false).1 = ⟨Body.text "", 204⟩ ∧
      (delete_flag name (delete_flag name db2 false).2.1 false).1.status =
        404) := by
  have hd : d.isEmpty = false := by
    refine isEmpty_false_of_ne_nil ?_
    intro h
    subst h
    exact hval rfl
  have hfe : (update_fields d).isEmpty = false := isEmpty_false_of_ne_nil hval
  have hfil : db.filter (fun r => r.name = JVal.jstr name) = [] := by
    rw [List.filter_eq_nil_iff]
    intro r hr
    simpa using hmiss r hr
  refine ⟨?_, ?_, ?_, ?_, ?_⟩
  · simp [update_flag, hd, update_with_fields, hfe, hfil]
  · simp [update_flag, hd, update_with_fields, hfe, hfil]
  · simp [delete_flag_notfound name db hmiss]
  · simp [delete_flag_notfound name db hmiss]
  · intro db2 hex
    rw [delete_flag_found name db2 hex]
    have hmiss2 : ∀ r ∈ db2.filter (fun r => ¬ (r.name = JVal.jstr name)),
        r.name ≠ JVal.jstr name := by
      intro r hr
      have := (List.mem_filter.mp hr).2
      simpa using this
    refine ⟨rfl, ?_⟩
    rw [delete_flag_notfound name _ hmiss2]

/-- Witness for C8: updating and deleting the unknown flag `ghost` on a
store holding only `dark_mode` is answered 404 and changes nothing, while
deleting `dark_mode` is answered 204 and a second delete 404. -/
theorem update_delete_notfound_semantics_witness :
    (update_flag "ghost"
        [⟨JVal.jstr "dark_mode", JVal.jstr "", JVal.jbool false, 1, 1⟩] 2
        (some [("is_enabled", JVal.jbool true)]) false).1.status = 404 ∧
    (update_flag "ghost"
        [⟨JVal.jstr "dark_mode", JVal.jstr "", JVal.jbool false, 1, 1⟩] 2
        (some [("is_enabled", JVal.jbool true)]) false).2.1 =
      [⟨JVal.jstr "dark_mode", JVal.jstr "", JVal.jbool false, 1, 1⟩] ∧
    (delete_flag "ghost"
        [⟨JVal.jstr "dark_mode", JVal.jstr "", JVal.jbool false, 1, 1⟩]
        false).1.status = 404 ∧
    (delete_flag "ghost"
        [⟨JVal.jstr "dark_mode", JVal.jstr "", JVal.jbool false, 1, 1⟩]
        false).2.1 =
      [⟨JVal.jstr "dark_mode", JVal.jstr "", JVal.jbool false, 1, 1⟩] ∧
    (delete_flag "dark_mode"
        [⟨JVal.jstr "dark_mode", JVal.jstr "", JVal.jbool false, 1, 1⟩]
        false).1 = ⟨Body.text "", 204⟩ ∧
    (delete_flag "dark_mode"
        (delete_flag "dark_mode"
          [⟨JVal.jstr "dark_mode", JVal.jstr "", JVal.jbool false, 1, 1⟩]
          false).2.1 false).1.status = 404 := by
  have h := update_delete_notfound_semantics "ghost"
    [⟨JVal.jstr "dark_mode", JVal.jstr "", JVal.jbool false, 1, 1⟩] 2
    [("is_enabled", JVal.jbool true)]
    (by intro r hr; simp at hr; subst hr; decide) (by decide)
  have h2 := update_delete_notfound_semantics "dark_mode"
    [⟨JVal.jstr "dark_mode", JVal.jstr "", JVal.jbool false, 1, 1⟩] 2
    [("is_enabled", JVal.jbool true)]
  have h5 := h.2.2.2.2
    [⟨JVal.jstr "dark_mode", JVal.jstr "", JVal.jbool false, 1, 1⟩]
  exact ⟨h.1, h.2.1, h.2.2.1, h.2.2.2.1, by
    have h6 := (update_delete_notfound_semantics "dark_mode" [] 2
      [("is_enabled", JVal.jbool true)] (fun r hr => nomatch hr)
      (by decide)).2.2.2.2
      [⟨JVal.jstr "dark_mode", JVal.jstr "", JVal.jbool false, 1, 1⟩]
      ⟨⟨JVal.jstr "dark_mode", JVal.jstr "", JVal.jbool false, 1, 1⟩,
        by simp, rfl⟩
    exact h6.1, by
    have h6 := (update_delete_notfound_semantics "dark_mode" [] 2
      [("is_enabled", JVal.jbool true)] (fun r hr => nomatch hr)
      (by decide)).2.2.2.2
      [⟨JVal.jstr "dark_mode", JVal.jstr "", JVal.jbool false, 1, 1⟩]
      ⟨⟨JVal.jstr "dark_mode", JVal.jstr "", JVal.jbool false, 1, 1⟩,
        by simp, rfl⟩
    exact h6.2⟩

/-- C9: a successful update rewrites exactly the rows matching the
targeted name; the rewritten row keeps its name and `created_at`, takes
the supplied `description` and `is_enabled` values — keeping the previous
value of any field not supplied — and gets `updated_at` refreshed to the
request time; all other rows are untouched. -/
theorem update_frame_condition (name : String) (db : List Flag) (now : Nat)
    (d : JObj) (hval : update_fields d ≠ [])
    (hex : ∃ r ∈ db, r.name = JVal.jstr name) :
    (update_flag name db now (some d) false).1.status = 200 ∧
    (update_flag name db now (some d) false).2.1 =
      db.map (fun x => if x.name = JVal.jstr name then
        (⟨x.name, (jget d "description").getD x.description,
          (jget d "is_enabled").getD x.is_enabled, x.created_at, now⟩ : Flag)
        else x) := by
  have hd : d.isEmpty = false := by
    refine isEmpty_false_of_ne_nil ?_
    intro h
    subst h
    exact hval rfl
  have hfe : (update_fields d).isEmpty = false := isEmpty_false_of_ne_nil hval
  rcases hex with ⟨r, hr, hv⟩
  have hmem : r ∈ db.filter (fun x => x.name = JVal.jstr name) :=
    List.mem_filter.mpr ⟨hr, by simpa using hv⟩
  cases hfil : db.filter (fun x => x.name = JVal.jstr name) with
  | nil => rw [hfil] at hmem; cases hmem
  | cons m ms =>
    refine ⟨?_, ?_⟩
    · simp [update_flag, hd, update_with_fields, hfe, hfil]
    · simp [update_flag, hd, update_with_fields, hfe, hfil,
        applyFields_update_fields]

/-- Witness for C9: the scenario update enabling `dark_mode` is answered
200 and rewrites only `is_enabled` and `updated_at`, keeping name,
description and `created_at`. -/
theorem update_frame_condition_witness :
    (update_flag "dark_mode"
        [⟨JVal.jstr "dark_mode", JVal.jstr "old", JVal.jbool false, 1, 1⟩] 5
        (some [("is_enabled", JVal.jbool true)]) false).1.status = 200 ∧
    (update_flag "dark_mode"
        [⟨JVal.jstr "dark_mode", JVal.jstr "old", JVal.jbool false, 1, 1⟩] 5
        (some [("is_enabled", JVal.jbool true)]) false).2.1 =
      [⟨JVal.jstr "dark_mode", JVal.jstr "old", JVal.jbool true, 1, 5⟩] := by
  have h := update_frame_condition "dark_mode"
    [⟨JVal.jstr "dark_mode", JVal.jstr "old", JVal.jbool false, 1, 1⟩] 5
    [("is_enabled", JVal.jbool true)] (by decide)
    ⟨⟨JVal.jstr "dark_mode", JVal.jstr "old", JVal.jbool false, 1, 1⟩,
      by simp, rfl⟩
  refine ⟨h.1, ?_⟩
  rw [h.2]
  decide

/-- C1 (amended): a request whose Authorization header is absent — or
present but empty, which the middleware treats the same way — is rejected
immediately with 401 "authorization required", with no call to the
external service, no database event, and the stored rows unchanged.  A
present non-empty header is forwarded exactly once to the validation
endpoint with the 3-time-unit bound; a non-200 status is answered 401
(invalid credential), a timeout 504, any other transport failure 503, and
only a 200 status lets the wrapped handler run. -/
theorem auth_gate_spec (authHeader : Option String) (svc : SvcResult)
    (handler : List Flag → Response × List Flag × List DbEv)
    (db : List Flag) :
    ((authHeader = none ∨ authHeader = some "") →
      guarded_handler authHeader svc handler db =
        (⟨Body.err "Authorization header obrigatório", 401⟩, db, [], [])) ∧
    (∀ h, authHeader = some h → h ≠ "" →
      (require_auth authHeader svc).2 = [⟨h, 3⟩] ∧
      (∀ c, svc = SvcResult.status c → c ≠ 200 →
        guarded_handler authHeader svc handler db =
          (⟨Body.err "Chave de API inválida", 401⟩, db, [], [⟨h, 3⟩])) ∧
      (svc = SvcResult.timeout →
        guarded_handler authHeader svc handler db =
          (⟨Body.err "Serviço de autenticação indisponível (timeout)", 504⟩,
            db, [], [⟨h, 3⟩])) ∧
      (svc = SvcResult.transportError →
        guarded_handler authHeader svc handler db =
          (⟨Body.err "Serviço de autenticação indisponível", 503⟩, db, [],
            [⟨h, 3⟩])) ∧
      (svc = SvcResult.status 200 →
        guarded_handler authHeader svc handler db =
          ((handler db).1, (handler db).2.1, (handler db).2.2,
            [⟨h, 3⟩]))) := by
  constructor
  · rintro (rfl | rfl)
    · rfl
    · rfl
  · rintro h rfl hne
    refine ⟨?_, ?_, ?_, ?_, ?_⟩
    · cases svc with
      | status c =>
        by_cases hc : c = 200 <;> simp [require_auth, hne, hc]
      | timeout => simp [require_auth, hne]
      | transportError => simp [require_auth, hne]
    · rintro c rfl hc
      simp [guarded_handler, require_auth, hne, hc]
    · rintro rfl
      simp [guarded_handler, require_auth, hne]
    · rintro rfl
      simp [guarded_handler, require_auth, hne]
    · rintro rfl
      simp [guarded_handler, require_auth, hne]

/-- Witness for C1: a concrete request with header `tok` whose validation
call times out is answered 504, with no database event and no handler
run. -/
theorem auth_gate_spec_witness :
    guarded_handler (some "tok") SvcResult.timeout
        (fun dbx => (⟨Body.text "ok", 200⟩, dbx, [DbEv.getconn])) [] =
      (⟨Body.err "Serviço de autenticação indisponível (timeout)", 504⟩,
        [], [], [⟨"tok", 3⟩]) := by
  have h := auth_gate_spec (some "tok") SvcResult.timeout
    (fun dbx => (⟨Body.text "ok", 200⟩, dbx, [DbEv.getconn])) []
  exact ((h.2 "tok" rfl (by decide)).2.2.1) rfl

/-- C10: an update body carrying at least one recognized field may carry
arbitrary additional keys: they raise no validation error, the generated
SET clause names only the columns `description`, `is_enabled` and
`updated_at`, and the whole operation behaves exactly as if the
unrecognized keys had been removed from the body. -/
theorem update_ignores_unrecognized_keys (name : String) (db : List Flag)
    (now : Nat) (d : JObj) (dbFault : Bool)
    (hrec : jget d "description" ≠ none ∨ jget d "is_enabled" ≠ none) :
    (∀ c ∈ update_query_columns d,
      c = "description" ∨ c = "is_enabled" ∨ c = "updated_at") ∧
    update_flag name db now (some d) dbFault =
      update_flag name db now
        (some (d.filter (fun kv =>
          kv.1 = "description" ∨ kv.1 = "is_enabled"))) dbFault := by
  have hjd : jget (d.filter (fun kv =>
      kv.1 = "description" ∨ kv.1 = "is_enabled")) "description" =
      jget d "description" :=
    jget_filter d _ "description" (fun v => by simp)
  have hje : jget (d.filter (fun kv =>
      kv.1 = "description" ∨ kv.1 = "is_enabled")) "is_enabled" =
      jget d "is_enabled" :=
    jget_filter d _ "is_enabled" (fun v => by simp)
  have hfeq : update_fields (d.filter (fun kv =>
      kv.1 = "description" ∨ kv.1 = "is_enabled")) = update_fields d := by
    unfold update_fields
    rw [hjd, hje]
  constructor
  · intro c hc
    unfold update_query_columns update_fields at hc
    cases hv : jget d "description" <;> cases hw : jget d "is_enabled" <;>
      rw [hv, hw] at hc <;> simp at hc <;> tauto
  · have hdne : d ≠ [] := by
      rcases hrec with h | h
      · cases hv : jget d "description" with
        | none => exact absurd hv h
        | some v => exact jget_some_ne_nil d "description" v hv
      · cases hv : jget d "is_enabled" with
        | none => exact absurd hv h
        | some v => exact jget_some_ne_nil d "is_enabled" v hv
    have hfne : d.filter (fun kv =>
        kv.1 = "description" ∨ kv.1 = "is_enabled") ≠ [] := by
      rcases hrec with h | h
      · cases hv : jget d "description" with
        | none => exact absurd hv h
        | some v =>
          refine jget_some_ne_nil _ "description" v ?_
          rw [hjd]
          exact hv
      · cases hv : jget d "is_enabled" with
        | none => exact absurd hv h
        | some v =>
          refine jget_some_ne_nil _ "is_enabled" v ?_
          rw [hje]
          exact hv
    have hd : d.isEmpty = false := isEmpty_false_of_ne_nil hdne
    have hdf : (d.filter (fun kv =>
        kv.1 = "description" ∨ kv.1 = "is_enabled")).isEmpty = false :=
      isEmpty_false_of_ne_nil hfne
    rw [update_flag_some_eq name db now d dbFault hd,
      update_flag_some_eq name db now _ dbFault hdf, hfeq]

/-- Witness for C10: a concrete update body enabling the flag and carrying
the unrecognized key `color` behaves exactly as the body with `color`
removed. -/
theorem update_ignores_unrecognized_keys_witness :
    update_flag "dark_mode"
        [⟨JVal.jstr "dark_mode", JVal.jstr "", JVal.jbool false, 1, 1⟩] 5
        (some [("is_enabled", JVal.jbool true), ("color", JVal.jstr "red")])
        false =
      update_flag "dark_mode"
          [⟨JVal.jstr "dark_mode", JVal.jstr "", JVal.jbool false, 1, 1⟩] 5
          (some ([("is_enabled", JVal.jbool true),
            ("color", JVal.jstr "red")].filter (fun kv =>
              kv.1 = "description" ∨ kv.1 = "is_enabled"))) false :=
  (update_ignores_unrecognized_keys "dark_mode"
    [⟨JVal.jstr "dark_mode", JVal.jstr "", JVal.jbool false, 1, 1⟩] 5
    [("is_enabled", JVal.jbool true), ("color", JVal.jstr "red")] false
    (Or.inr (by decide))).2

end FlagService
